import Mathlib

/-!
Verification development for the robot-orchestra match orchestration core.

The match record, the robot worker (src/lambda/deploy/robot-worker.js) and the
AI task processor retry loop are embedded as executable Lean definitions; maps
stored in the record store are modelled as association lists whose write
primitive has set-key (replace-or-append) semantics, matching a document
store map update. The match-service orchestrator itself (join, respond, vote,
round transition) ships compiled elsewhere; where a property is decided by
that component, the definition is modelled from the spec and marked as such
in its doc comment.
-/

namespace RobotOrchestra

/-- Status of a single round: responding, then voting, then completed. -/
inductive RoundStatus where
  | responding
  | voting
  | completed
deriving DecidableEq, Repr

/-- Lifecycle status of a match record. -/
inductive MatchStatus where
  | waiting_for_players
  | round_active
  | completed
  | abandoned
deriving DecidableEq, Repr

/-- One participant slot of a match: anonymous identity letter, external user
id, the AI flag, and the cumulative score. -/
structure Participant where
  identity : String
  userId : String
  isAI : Bool
  score : Int
deriving DecidableEq, Repr

/-- One round of a match, with its incrementally built maps, modelled as
association lists keyed by identity (responses, votes, scores) or by opaque
response id (responseMapping). -/
structure Round where
  roundNumber : Nat
  prompt : String
  status : RoundStatus
  responses : List (String × String)
  responseMapping : List (String × String)
  votes : List (String × String)
  scores : List (String × Int)
deriving DecidableEq, Repr

/-- The shared match record stored under the match id. -/
structure GameMatch where
  matchId : String
  status : MatchStatus
  currentRound : Nat
  totalRounds : Nat
  participants : List Participant
  rounds : List Round
deriving DecidableEq, Repr

/-- Lookup of a key in an association list (first binding wins). -/
def lookupKey (k : String) : List (String × String) → Option String
  | [] => none
  | (k₀, v₀) :: rest => if k₀ = k then some v₀ else lookupKey k rest

/-- Document-store map SET semantics: replace the binding for the key if
present, append it otherwise. -/
def setKey (k v : String) : List (String × String) → List (String × String)
  | [] => [(k, v)]
  | (k₀, v₀) :: rest => if k₀ = k then (k, v) :: rest else (k₀, v₀) :: setKey k v rest

/-- Find a round by its round number (the findIndex over match.rounds in the
worker and service code). -/
def findRound (rounds : List Round) (rn : Nat) : Option Round :=
  rounds.find? (fun r => r.roundNumber = rn)

/-- Apply an update function to the first round with the given round number,
leaving the list unchanged when no round matches. -/
def mapRound (rounds : List Round) (rn : Nat) (f : Round → Round) : List Round :=
  match rounds with
  | [] => []
  | r :: rest => if r.roundNumber = rn then f r :: rest else r :: mapRound rest rn f

/-- Outcome of the AI-service Lambda invocation as seen by the robot worker:
either a successfully parsed response text, or any of the error paths
(non-200 status, errorMessage, missing fields, thrown error). -/
inductive AIServiceResult where
  | success (text : String)
  | failure
deriving DecidableEq, Repr

/-- Hardcoded per-robot fallback response lists (robotPersonalities in
robot-worker.js); only robots B, C and D have an entry. -/
def robotPersonalityResponses (robotId : String) : Option (List String) :=
  if robotId = "B" then
    some ["Like whispers in the twilight, it dances on the edge of perception",
          "A symphony of shadows, playing in minor keys",
          "Crystalline fragments of yesterday, scattered across tomorrow",
          "It breathes in colors that have no names",
          "Soft as moth wings against the window of time"]
  else if robotId = "C" then
    some ["Approximately 42 decibels of introspective resonance",
          "The quantifiable essence measures 3.7 on the emotional scale",
          "Statistical analysis suggests a correlation with ambient frequencies",
          "Data indicates a wavelength between visible and invisible spectrums",
          "Empirically speaking, it registers as a null hypothesis of sensation"]
  else if robotId = "D" then
    some ["Like a disco ball made of butterflies!",
          "It\x27s the giggles of invisible unicorns, obviously",
          "Tastes like purple mixed with the sound of Tuesday",
          "Bouncy castle vibes but for your feelings",
          "Imagine a kazoo orchestra playing underwater ballet"]
  else none

/-- Robot id to AI personality map (robotToPersonality in robot-worker.js). -/
def robotToPersonality (robotId : String) : Option String :=
  if robotId = "B" then some "philosopher"
  else if robotId = "C" then some "scientist"
  else if robotId = "D" then some "comedian"
  else none

/-- Robot id to dwarf display name map (robotToDwarfName in robot-worker.js). -/
def robotToDwarfName (robotId : String) : Option String :=
  if robotId = "B" then some "Doc"
  else if robotId = "C" then some "Happy"
  else if robotId = "D" then some "Dopey"
  else none

/-- The dwarf name used in marker suffixes, defaulting to the robot id itself
(the robotToDwarfName robotId or robotId expression in robot-worker.js). -/
def dwarfNameOf (robotId : String) : String :=
  (robotToDwarfName robotId).getD robotId

/-- The fixed string returned for a robot id with no personality entry. -/
def genericFallback : String := "A mysterious essence beyond description"

/-- Embeds generateFallbackResponse from robot-worker.js. The JavaScript draws
a uniformly random index into the five hardcoded responses; the draw is made
explicit as the randIndex parameter, reduced modulo the list length exactly as
Math.floor(Math.random() * responses.length) always lands inside the list. -/
def generateFallbackResponse (robotId : String) (randIndex : Nat) : String :=
  match robotPersonalityResponses robotId with
  | none => genericFallback
  | some responses =>
      responses.getD (randIndex % responses.length) "" ++ " [Fallback: " ++ dwarfNameOf robotId ++ "]"

/-- Embeds generateRobotResponse from robot-worker.js: a robot id without a
personality entry falls back immediately without calling the AI service; a
successful service call returns the generated text with the AI marker suffix;
any service failure falls back to the hardcoded responses. -/
def generateRobotResponse (robotId : String) (svc : AIServiceResult) (randIndex : Nat) : String :=
  match robotToPersonality robotId with
  | none => generateFallbackResponse robotId randIndex
  | some _ =>
      match svc with
      | .success text => text ++ " [AI: " ++ dwarfNameOf robotId ++ "]"
      | .failure => generateFallbackResponse robotId randIndex

/-- Embeds processRobotResponse from robot-worker.js, acting on the fetched
match record: locate the round by round number (none models the thrown Round
not found error), generate the robot response, and store it with a plain
unconditional document-store SET on rounds[idx].responses.robotId. The
deployed code attaches no condition expression to this write and never
inspects the match status. -/
def processRobotResponse (m : GameMatch) (rn : Nat) (robotId : String)
    (svc : AIServiceResult) (randIndex : Nat) : Option GameMatch :=
  match findRound m.rounds rn with
  | none => none
  | some _ =>
      let text := generateRobotResponse robotId svc randIndex
      let rounds := mapRound m.rounds rn
        (fun r => { r with responses := setKey robotId text r.responses })
      some { m with rounds := rounds }

/-- The response text stored for an identity in the round with the given
round number, if any. -/
def storedResponse (m : GameMatch) (rn : Nat) (robotId : String) : Option String :=
  match findRound m.rounds rn with
  | none => none
  | some r => lookupKey robotId r.responses

/-- Outcome of one Bedrock InvokeModel attempt as classified by the AI task
processor: success, a rate-limit error, an access error, or any other error. -/
inductive BedrockOutcome where
  | ok (text : String)
  | throttle
  | accessDenied
  | otherError
deriving DecidableEq, Repr

/-- The bounded retry count of AITaskProcessor.invokeModel. -/
def maxRetries : Nat := 3

/-- Embeds AITaskProcessor.invokeModel: each attempt outcome is given by the
attempt function, the random jitter drawn before each retry by the jitter
function (the JavaScript draws Math.random() * 500). Returns the final result
together with the list of backoff delays (milliseconds) slept before each
retry: baseDelay 1000 * 2 ^ retryCount plus jitter. -/
def invokeModel (modelId : String) (attempt : Nat → BedrockOutcome)
    (jitter : Nat → Nat) (retryCount : Nat) : Except String String × List Nat :=
  match attempt retryCount with
  | .ok text => (.ok text, [])
  | .throttle =>
      if h : retryCount < maxRetries then
        let rest := invokeModel modelId attempt jitter (retryCount + 1)
        (rest.1, (1000 * 2 ^ retryCount + jitter retryCount) :: rest.2)
      else
        (.error ("Bedrock rate limit exceeded for " ++ modelId ++ " after 3 retries."), [])
  | .accessDenied =>
      (.error ("Model " ++ modelId ++ " is not enabled in Bedrock. Check model access in AWS Console."), [])
  | .otherError => (.error "Bedrock invocation error", [])
termination_by maxRetries - retryCount

/-- Embeds the vote-feedback computation of HumanOrRobot.handleVote in the
frontend: from the match payload held by the client it computes the correct
answer as the identity of the first participant whose isAI flag is false. -/
def clientCorrectAnswer (m : GameMatch) : Option String :=
  (m.participants.find? (fun p => !p.isAI)).map (fun p => p.identity)

/-- Identities of all participants of a match. -/
def allIdentities (m : GameMatch) : List String :=
  m.participants.map (fun p => p.identity)

/-- Identities of the human participants of a match. -/
def humanIdentities (m : GameMatch) : List String :=
  (m.participants.filter (fun p => !p.isAI)).map (fun p => p.identity)

/-- Identities of the AI participants of a match. -/
def aiIdentities (m : GameMatch) : List String :=
  (m.participants.filter (fun p => p.isAI)).map (fun p => p.identity)

/-- Modelled from the spec (the match-service orchestrator is not among the
shipped sources): the completeness check compares the key set of an
incrementally built map against the required identity set — every required
identity has an entry and every entry's key is a required identity. A pure
set-membership check, no ordering involved. -/
def keysComplete (entries : List (String × String)) (ids : List String) : Bool :=
  ids.all (fun i => (lookupKey i entries).isSome) && entries.all (fun e => ids.contains e.1)

/-- Modelled from the spec (the match-service orchestrator is not among the
shipped sources): the compare-and-swap round status write — set the round
status to newStatus only if the round is still in the expected prior status,
otherwise fail without writing. -/
def casRoundStatus (m : GameMatch) (rn : Nat) (expected newStatus : RoundStatus) :
    Option GameMatch :=
  match findRound m.rounds rn with
  | none => none
  | some r =>
      if r.status = expected then
        some { m with rounds := mapRound m.rounds rn (fun r₀ => { r₀ with status := newStatus }) }
      else none

/-- Modelled from the spec (the match-service orchestrator is not among the
shipped sources): advance a round from responding to voting — read the round,
check response completeness against all participant identities, then perform
the guarded status write. The responseMapping generation and other side
effects fire exactly when this write takes effect. -/
def transitionRoundToVoting (m : GameMatch) (rn : Nat) : Option GameMatch :=
  match findRound m.rounds rn with
  | none => none
  | some r =>
      if keysComplete r.responses (allIdentities m) then
        casRoundStatus m rn .responding .voting
      else none

/-- Modelled from the spec (the match-service orchestrator is not among the
shipped sources): complete a round from voting — read the round, check vote
completeness against all participant identities, then perform the guarded
status write. Scoring and next-round initialization fire exactly when this
write takes effect. -/
def transitionRoundToCompleted (m : GameMatch) (rn : Nat) : Option GameMatch :=
  match findRound m.rounds rn with
  | none => none
  | some r =>
      if keysComplete r.votes (allIdentities m) then
        casRoundStatus m rn .voting .completed
      else none

/-- Modelled from the spec (the match-service orchestrator is not among the
shipped sources): finalize the match after its last round — a
compare-and-swap write setting the match status to completed only if the
match is still in its prior status round_active. -/
def transitionMatchToCompleted (m : GameMatch) : Option GameMatch :=
  if m.status = .round_active then some { m with status := .completed } else none

/-- Run an attempted round transition against the store: the pair holds the
store state afterwards and whether the conditional write took effect (the
transition and its side effects fire exactly on a true flag). -/
def applyRoundVoting (m : GameMatch) (rn : Nat) : GameMatch × Bool :=
  match transitionRoundToVoting m rn with
  | some m₁ => (m₁, true)
  | none => (m, false)

/-- Run an attempted match completion against the store, with the same
took-effect flag as applyRoundVoting. -/
def applyMatchCompletion (m : GameMatch) : GameMatch × Bool :=
  match transitionMatchToCompleted m with
  | some m₁ => (m₁, true)
  | none => (m, false)

/-- Whether every human identity of the match has a response in the round. -/
def allHumansResponded (m : GameMatch) (r : Round) : Bool :=
  (humanIdentities m).all (fun i => (lookupKey i r.responses).isSome)

/-- Modelled from the spec (the match-service orchestrator is not among the
shipped sources): the AI Coordinator dispatch decision run after every human
response write — once all human identities have responded, enqueue one
generation request per AI identity still lacking a response; before that,
dispatch nothing. -/
def aiDispatch (m : GameMatch) (r : Round) : List String :=
  if allHumansResponded m r then
    (aiIdentities m).filter (fun i => (lookupKey i r.responses).isNone)
  else []

/-- Validation errors of the vote endpoint. -/
inductive VoteError where
  | notVotingPhase
  | invalidResponseId
  | ownResponse
  | alreadyVoted
deriving DecidableEq, Repr

/-- Modelled from the spec (the match-service orchestrator is not among the
shipped sources): submitVote on the current round — reject when the round is
not in voting, when the response id is not a key of responseMapping (Invalid
response ID), when the response id resolves to the voter's own identity
(Cannot vote for your own response), or when the voter already voted; on an
error the match record is returned untouched inside no branch: only the
success branch constructs a new record. -/
def submitVote (m : GameMatch) (voter rid : String) : Except VoteError GameMatch :=
  match findRound m.rounds m.currentRound with
  | none => .error .notVotingPhase
  | some r =>
      if r.status = .voting then
        match lookupKey rid r.responseMapping with
        | none => .error .invalidResponseId
        | some target =>
            if target = voter then .error .ownResponse
            else if (lookupKey voter r.votes).isSome then .error .alreadyVoted
            else
              let rounds := mapRound m.rounds m.currentRound
                (fun r₀ => { r₀ with votes := setKey voter rid r₀.votes })
              .ok { m with rounds := rounds }
      else .error .notVotingPhase

/-- Every recorded vote of the round targets a response id that resolves to
an identity other than the voter. -/
def votesValid (r : Round) : Prop :=
  ∀ voter rid, (voter, rid) ∈ r.votes → lookupKey rid r.responseMapping ≠ some voter

/-- Descending-by-cumulative-score order on participants. -/
def scoreDescRel (a b : Participant) : Prop := b.score ≤ a.score

instance : DecidableRel scoreDescRel :=
  fun a b => inferInstanceAs (Decidable (b.score ≤ a.score))

instance : IsTotal Participant scoreDescRel := ⟨fun a b => le_total b.score a.score⟩

instance : IsTrans Participant scoreDescRel := ⟨fun _ _ _ hab hbc => le_trans hbc hab⟩

/-- Competition rank of a cumulative score within a participant list: one
more than the number of participants with a strictly greater score. -/
def rankOf (ps : List Participant) (s : Int) : Nat :=
  1 + (ps.filter (fun q => s < q.score)).length

/-- Modelled from the spec (the match-service orchestrator is not among the
shipped sources): calculateFinalRankings — sort the participants descending
by cumulative score and attach to each its standard competition rank, so tied
participants share a rank and the next distinct score is offset by the number
of tied entries. -/
def calculateFinalRankings (ps : List Participant) : List (Participant × Nat) :=
  (List.insertionSort scoreDescRel ps).map (fun p => (p, rankOf ps p.score))

/-! Concrete fixtures: the duo_2v2 layout used throughout the integration
tests — humans on identities A and C, AI participants on B and D. -/

/-- The four participants of a duo_2v2 match as set up in the 2v2 tests. -/
def duoParticipants : List Participant :=
  [{ identity := "A", userId := "alice", isAI := false, score := 0 },
   { identity := "B", userId := "ai-1", isAI := true, score := 0 },
   { identity := "C", userId := "bob", isAI := false, score := 0 },
   { identity := "D", userId := "ai-2", isAI := true, score := 0 }]

/-- A duo_2v2 match holding the given single round. -/
def duoMatch (r : Round) : GameMatch :=
  { matchId := "test-match", status := .round_active, currentRound := 1,
    totalRounds := 5, participants := duoParticipants, rounds := [r] }

/-- Round 1 right after the first human (A) responded. -/
def roundAfterA : Round :=
  { roundNumber := 1, prompt := "What brings you unexpected joy?",
    status := .responding,
    responses := [("A", "Finding a perfect parking spot")],
    responseMapping := [], votes := [], scores := [] }

/-- Round 1 right after both humans (A and C) responded. -/
def roundAfterAC : Round :=
  { roundAfterA with
    responses := [("A", "Finding a perfect parking spot"),
                  ("C", "When my code compiles on the first try")] }

/-- Round 1 with all four responses collected, still in responding status. -/
def fullRound : Round :=
  { roundNumber := 1, prompt := "What sound does loneliness make?",
    status := .responding,
    responses := [("A", "Silence"), ("B", "A distant echo"),
                  ("C", "The ticking of a clock"), ("D", "The hum of an empty fridge")],
    responseMapping := [], votes := [], scores := [] }

/-- A duo match whose round 1 has all responses in and is still responding. -/
def mcFull : GameMatch := duoMatch fullRound

/-- The duo match right after round 1 transitioned to voting. -/
def mcFullV : GameMatch := duoMatch { fullRound with status := .voting }

/-- The duo match after match completion was applied to mcFullV. -/
def mcDone : GameMatch := { mcFullV with status := .completed }

/-- A match whose round 1 already stores a response for robot B. -/
def mc2 : GameMatch :=
  duoMatch { fullRound with
    responses := [("A", "Silence"), ("B", "old robot line")] }

/-- An abandoned (terminal) duo match with round 1 lacking a B response. -/
def abandonedMatch : GameMatch :=
  { duoMatch roundAfterAC with matchId := "stale-match", status := .abandoned }

/-- Round 1 in voting with the response mapping of the 2v2 voting tests. -/
def votingRound : Round :=
  { roundNumber := 1, prompt := "What sound does loneliness make?",
    status := .voting,
    responses := [("A", "Silence"), ("B", "A distant echo"),
                  ("C", "The ticking of a clock"), ("D", "The hum of an empty fridge")],
    responseMapping := [("resp-1", "A"), ("resp-2", "B"), ("resp-3", "C"), ("resp-4", "D")],
    votes := [], scores := [] }

/-- A duo match in the voting phase of round 1. -/
def mc8 : GameMatch := duoMatch votingRound

/-- Four participants with cumulative scores 10, 10, 8, 8. -/
def tiedParticipants : List Participant :=
  [{ identity := "A", userId := "alice", isAI := false, score := 10 },
   { identity := "B", userId := "bob", isAI := false, score := 10 },
   { identity := "C", userId := "ai-1", isAI := true, score := 8 },
   { identity := "D", userId := "ai-2", isAI := true, score := 8 }]

/-- A voting-phase match payload as delivered to the client, isAI flags on
the humans-at-A-and-C layout. -/
def mc7a : GameMatch := duoMatch votingRound

/-- The same voting-phase payload with every isAI flag negated. -/
def mc7b : GameMatch :=
  { mc7a with participants :=
      [{ identity := "A", userId := "alice", isAI := true, score := 0 },
       { identity := "B", userId := "ai-1", isAI := false, score := 0 },
       { identity := "C", userId := "bob", isAI := true, score := 0 },
       { identity := "D", userId := "ai-2", isAI := false, score := 0 }] }

/-! Helper lemmas about the association-list primitives and strings. -/

/-- A permutation of a list leaves List.any unchanged. -/
theorem perm_any {α : Type} (p : α → Bool) {l₁ l₂ : List α} (h : l₁.Perm l₂) :
    l₁.any p = l₂.any p := by
  induction h with
  | nil => rfl
  | cons x _ ih => simp [List.any_cons, ih]
  | swap x y l => simp [List.any_cons, Bool.or_left_comm]
  | trans _ _ ih₁ ih₂ => exact ih₁.trans ih₂

/-- A permutation of a list leaves List.all unchanged. -/
theorem perm_all {α : Type} (p : α → Bool) {l₁ l₂ : List α} (h : l₁.Perm l₂) :
    l₁.all p = l₂.all p := by
  induction h with
  | nil => rfl
  | cons x _ ih => simp [List.all_cons, ih]
  | swap x y l => simp [List.all_cons, Bool.and_left_comm]
  | trans _ _ ih₁ ih₂ => exact ih₁.trans ih₂

/-- List.all only depends on the pointwise values of its predicate. -/
theorem all_congr_local {α : Type} {p q : α → Bool} (l : List α)
    (h : ∀ a, a ∈ l → p a = q a) : l.all p = l.all q := by
  induction l with
  | nil => rfl
  | cons x xs ih =>
      simp only [List.all_cons]
      rw [h x (List.mem_cons_self x xs), ih (fun a ha => h a (List.mem_cons_of_mem x ha))]

/-- A string of length zero is the empty string. -/
theorem eq_empty_of_length_zero {t : String} (h : t.length = 0) : t = "" := by
  cases t with
  | mk data =>
      cases data with
      | nil => rfl
      | cons c cs => simp [String.length] at h

/-- Appending a nonempty string on the right never yields the empty string. -/
theorem append_ne_empty_right (s t : String) (h : t ≠ "") : s ++ t ≠ "" := by
  intro hc
  apply h
  have hl := congrArg String.length hc
  rw [String.length_append, String.length_empty] at hl
  exact eq_empty_of_length_zero (by omega)

/-- Appending a nonempty string on the right changes the string. -/
theorem append_ne_self (s t : String) (h : t ≠ "") : s ++ t ≠ s := by
  intro hc
  apply h
  have hl := congrArg String.length hc
  rw [String.length_append] at hl
  exact eq_empty_of_length_zero (by omega)

/-- Looking up the key just set returns the written value. -/
theorem lookupKey_setKey (k v : String) (l : List (String × String)) :
    lookupKey k (setKey k v l) = some v := by
  induction l with
  | nil => simp [setKey, lookupKey]
  | cons e rest ih =>
      obtain ⟨k₀, v₀⟩ := e
      by_cases hk : k₀ = k
      · simp [setKey, hk, lookupKey]
      · simp [setKey, hk, lookupKey, ih]

/-- Every binding of a list after a set-key write is the written binding or
one of the old bindings. -/
theorem mem_setKey {k v : String} {e : String × String} :
    ∀ l : List (String × String), e ∈ setKey k v l → e = (k, v) ∨ e ∈ l := by
  intro l
  induction l with
  | nil =>
      intro h
      simpa [setKey] using h
  | cons e₀ rest ih =>
      obtain ⟨k₀, v₀⟩ := e₀
      intro h
      by_cases hk : k₀ = k
      · simp [setKey, hk, List.mem_cons] at h
        rcases h with h | h
        · exact Or.inl (by simp [h])
        · exact Or.inr (List.mem_cons_of_mem _ h)
      · simp [setKey, hk, List.mem_cons] at h
        rcases h with h | h
        · exact Or.inr (by simp [h])
        · rcases ih h with h₁ | h₁
          · exact Or.inl h₁
          · exact Or.inr (List.mem_cons_of_mem _ h₁)

/-- A present key stays present with the same lookup result under any
permutation-free description: lookup success is the same as an existence
check over the bindings. -/
theorem lookupKey_isSome (k : String) (l : List (String × String)) :
    (lookupKey k l).isSome = l.any (fun e => e.1 = k) := by
  induction l with
  | nil => simp [lookupKey]
  | cons e rest ih =>
      obtain ⟨k₀, v₀⟩ := e
      by_cases hk : k₀ = k
      · simp [lookupKey, hk]
      · simp [lookupKey, hk, ih]

/-- Finding a round after a round-number-preserving update of that round. -/
theorem findRound_mapRound (rounds : List Round) (rn : Nat) (f : Round → Round)
    (hf : ∀ r, (f r).roundNumber = r.roundNumber) :
    findRound (mapRound rounds rn f) rn = (findRound rounds rn).map f := by
  induction rounds with
  | nil => simp [mapRound, findRound]
  | cons r rest ih =>
      by_cases hr : r.roundNumber = rn
      · simp [mapRound, hr, findRound, List.find?_cons, hf]
      · simp only [mapRound, if_neg hr]
        simp only [findRound, List.find?_cons] at ih ⊢
        simp [hr, ih]

/-- A string extended on the right by three pieces ending in a bracket is
never equal to the original string. -/
theorem marker_ne_raw (raw x d : String) : raw ++ x ++ d ++ "]" ≠ raw := by
  rw [String.append_assoc, String.append_assoc]
  exact append_ne_self _ _ (append_ne_empty_right _ _ (append_ne_empty_right _ _ (by decide)))

/-- A fallback response is never the empty string: for the known robot ids it
ends in the bracketed Fallback marker, otherwise it is the fixed generic
string. -/
theorem generateFallbackResponse_ne_empty (robotId : String) (randIndex : Nat) :
    generateFallbackResponse robotId randIndex ≠ "" := by
  by_cases hb : robotId = "B"
  · subst hb; exact append_ne_empty_right _ _ (by decide)
  · by_cases hc : robotId = "C"
    · subst hc; exact append_ne_empty_right _ _ (by decide)
    · by_cases hd : robotId = "D"
      · subst hd; exact append_ne_empty_right _ _ (by decide)
      · simp [generateFallbackResponse, robotPersonalityResponses, hb, hc, hd, genericFallback]

/-! Claim theorems. -/

/-- C10: the worker never stores the raw generated text: for the known robot
ids B, C, D a successful AI call stores the generated text with the bracketed
AI dwarf-name suffix appended (hence differs from the raw text), and a failed
call stores a hardcoded fallback line with the bracketed Fallback dwarf-name
suffix; for any robot id outside B, C, D the stored text is the fixed generic
string. -/
theorem c10_marker_suffix (robotId raw : String) (randIndex : Nat) :
    ((robotId = "B" ∨ robotId = "C" ∨ robotId = "D") →
      generateRobotResponse robotId (.success raw) randIndex
          = raw ++ " [AI: " ++ dwarfNameOf robotId ++ "]" ∧
      generateRobotResponse robotId (.success raw) randIndex ≠ raw ∧
      ∃ base, generateRobotResponse robotId .failure randIndex
          = base ++ " [Fallback: " ++ dwarfNameOf robotId ++ "]") ∧
    (¬(robotId = "B" ∨ robotId = "C" ∨ robotId = "D") →
      generateRobotResponse robotId (.success raw) randIndex = genericFallback ∧
      generateRobotResponse robotId .failure randIndex = genericFallback) := by
  constructor
  · intro hk
    rcases hk with rfl | rfl | rfl
    · exact ⟨rfl, marker_ne_raw raw " [AI: " "Doc", ⟨_, rfl⟩⟩
    · exact ⟨rfl, marker_ne_raw raw " [AI: " "Happy", ⟨_, rfl⟩⟩
    · exact ⟨rfl, marker_ne_raw raw " [AI: " "Dopey", ⟨_, rfl⟩⟩
  · intro hnk
    push_neg at hnk
    obtain ⟨hb, hc, hd⟩ := hnk
    constructor
    · simp [generateRobotResponse, robotToPersonality, generateFallbackResponse,
            robotPersonalityResponses, hb, hc, hd]
    · simp [generateRobotResponse, robotToPersonality, generateFallbackResponse,
            robotPersonalityResponses, hb, hc, hd]

/-- C10 witness: the marker behavior at robot B on success and at an unknown
robot id on failure. -/
theorem c10_witness :
    generateRobotResponse "B" (.success "hello") 0 = "hello" ++ " [AI: " ++ dwarfNameOf "B" ++ "]" ∧
    generateRobotResponse "Z" .failure 0 = genericFallback :=
  ⟨((c10_marker_suffix "B" "hello" 0).1 (Or.inl rfl)).1,
   ((c10_marker_suffix "Z" "hello" 0).2 (by decide)).2⟩

/-- C6: when every Bedrock attempt is throttled, invokeModel retries with
exponential backoff (base 1000ms doubling per retry) plus jitter, stops after
the bounded three retries with a rate-limit error, and the worker then still
stores a non-empty fallback response for the target identity. -/
theorem c6_retry_backoff_fallback (modelId : String) (attempt : Nat → BedrockOutcome)
    (jitter : Nat → Nat) (hthrottle : ∀ k, attempt k = .throttle)
    (m : GameMatch) (rn : Nat) (robotId : String) (randIndex : Nat)
    (hround : (findRound m.rounds rn).isSome = true) :
    (invokeModel modelId attempt jitter 0).1
        = .error ("Bedrock rate limit exceeded for " ++ modelId ++ " after 3 retries.") ∧
    (invokeModel modelId attempt jitter 0).2
        = [1000 * 2 ^ 0 + jitter 0, 1000 * 2 ^ 1 + jitter 1, 1000 * 2 ^ 2 + jitter 2] ∧
    (processRobotResponse m rn robotId .failure randIndex).map
        (fun m₁ => storedResponse m₁ rn robotId)
      = some (some (generateRobotResponse robotId .failure randIndex)) ∧
    generateRobotResponse robotId .failure randIndex ≠ "" := by
  obtain ⟨r, hr⟩ : ∃ r, findRound m.rounds rn = some r := by
    cases hfr : findRound m.rounds rn
    · rw [hfr] at hround
      simp at hround
    · exact ⟨_, rfl⟩
  refine ⟨?_, ?_, ?_, ?_⟩
  · simp [invokeModel, hthrottle, maxRetries]
  · simp [invokeModel, hthrottle, maxRetries]
  · have hmap := findRound_mapRound m.rounds rn (fun r₀ => { r₀ with responses := setKey robotId (generateRobotResponse robotId .failure randIndex) r₀.responses }) (fun r₀ => rfl)
    simp [processRobotResponse, hr, storedResponse, hmap, lookupKey_setKey]
  · cases hp : robotToPersonality robotId
    · simp only [generateRobotResponse, hp]
      exact generateFallbackResponse_ne_empty robotId randIndex
    · simp only [generateRobotResponse, hp]
      exact generateFallbackResponse_ne_empty robotId randIndex

/-- C6 witness: the four conjuncts at an all-throttling service, zero jitter,
robot B and the mc2 fixture. -/
theorem c6_witness :
    (invokeModel "claude-3-haiku" (fun _ => .throttle) (fun _ => 0) 0).1
        = .error ("Bedrock rate limit exceeded for " ++ "claude-3-haiku" ++ " after 3 retries.") ∧
    (invokeModel "claude-3-haiku" (fun _ => .throttle) (fun _ => 0) 0).2
        = [1000 * 2 ^ 0 + 0, 1000 * 2 ^ 1 + 0, 1000 * 2 ^ 2 + 0] ∧
    (processRobotResponse mc2 1 "B" .failure 0).map (fun m₁ => storedResponse m₁ 1 "B")
      = some (some (generateRobotResponse "B" .failure 0)) ∧
    generateRobotResponse "B" .failure 0 ≠ "" :=
  c6_retry_backoff_fallback "claude-3-haiku" (fun _ => .throttle) (fun _ => 0)
    (fun _ => rfl) mc2 1 "B" 0 (by decide)

/-- C2 counterexample: the worker write is not a set-if-absent — on the mc2
fixture, where identity B already stores a response, re-processing a B
message replaces the stored response with a different value. -/
theorem c2_counterexample :
    storedResponse mc2 1 "B" = some "old robot line" ∧
    (processRobotResponse mc2 1 "B" (.success "new text") 0).map
        (fun m₁ => storedResponse m₁ 1 "B")
      = some (some "new text [AI: Doc]") ∧
    ("new text [AI: Doc]" : String) ≠ "old robot line" := by
  decide

/-- C2 amended: the robot worker write of responses[robotId] is an
unconditional document-store SET with no condition expression — whenever the
round exists, processing stores the newly generated text, replacing any
response already present for that identity (last writer wins). -/
theorem c2_amended_overwrite (m : GameMatch) (rn : Nat) (robotId old : String)
    (svc : AIServiceResult) (randIndex : Nat)
    (hprev : storedResponse m rn robotId = some old) :
    (processRobotResponse m rn robotId svc randIndex).map
        (fun m₁ => storedResponse m₁ rn robotId)
      = some (some (generateRobotResponse robotId svc randIndex)) := by
  obtain ⟨r, hr⟩ : ∃ r, findRound m.rounds rn = some r := by
    unfold storedResponse at hprev
    cases hfr : findRound m.rounds rn
    · rw [hfr] at hprev
      exact absurd hprev (by simp)
    · exact ⟨_, rfl⟩
  have hmap := findRound_mapRound m.rounds rn (fun r₀ => { r₀ with responses := setKey robotId (generateRobotResponse robotId svc randIndex) r₀.responses }) (fun r₀ => rfl)
  simp [processRobotResponse, hr, storedResponse, hmap, lookupKey_setKey]

/-- C2 witness: the amended overwrite behavior at the mc2 fixture. -/
theorem c2_witness :
    (processRobotResponse mc2 1 "B" (.success "seen twice") 0).map
        (fun m₁ => storedResponse m₁ 1 "B")
      = some (some (generateRobotResponse "B" (.success "seen twice") 0)) :=
  c2_amended_overwrite mc2 1 "B" "old robot line" (.success "seen twice") 0 (by decide)

/-- C3 counterexample: the worker never inspects the match status — an AI
completion arriving for the abandoned (terminal) abandonedMatch fixture is
processed and mutates the match record rather than leaving it unchanged. -/
theorem c3_counterexample :
    abandonedMatch.status = .abandoned ∧
    storedResponse abandonedMatch 1 "B" = none ∧
    (processRobotResponse abandonedMatch 1 "B" (.success "late text") 0).map
        (fun m₁ => storedResponse m₁ 1 "B")
      = some (some "late text [AI: Doc]") ∧
    processRobotResponse abandonedMatch 1 "B" (.success "late text") 0 ≠ some abandonedMatch := by
  decide

/-- C3 amended: the worker processes a late AI completion identically on a
terminal match — whenever the round exists it writes the generated response
into the terminal match record (mutating it) and leaves the status field as
it found it; there is no terminal-status guard. -/
theorem c3_amended_no_terminal_guard (m : GameMatch) (rn : Nat) (robotId : String)
    (svc : AIServiceResult) (randIndex : Nat)
    (_hterm : m.status = .completed ∨ m.status = .abandoned)
    (hround : (findRound m.rounds rn).isSome = true) :
    (processRobotResponse m rn robotId svc randIndex).map
        (fun m₁ => (storedResponse m₁ rn robotId, m₁.status))
      = some (some (generateRobotResponse robotId svc randIndex), m.status) := by
  obtain ⟨r, hr⟩ : ∃ r, findRound m.rounds rn = some r := by
    cases hfr : findRound m.rounds rn
    · rw [hfr] at hround
      simp at hround
    · exact ⟨_, rfl⟩
  have hmap := findRound_mapRound m.rounds rn (fun r₀ => { r₀ with responses := setKey robotId (generateRobotResponse robotId svc randIndex) r₀.responses }) (fun r₀ => rfl)
  simp [processRobotResponse, hr, storedResponse, hmap, lookupKey_setKey]

/-- C3 witness: the amended no-guard behavior at the abandoned fixture. -/
theorem c3_witness :
    (processRobotResponse abandonedMatch 1 "B" (.success "late text") 0).map
        (fun m₁ => (storedResponse m₁ 1 "B", m₁.status))
      = some (some (generateRobotResponse "B" (.success "late text") 0), abandonedMatch.status) :=
  c3_amended_no_terminal_guard abandonedMatch 1 "B" (.success "late text") 0
    (Or.inr rfl) (by decide)

/-- C7 counterexample: two voting-phase (pre-completion) match payloads with
identical rounds and identities but opposite isAI flags are distinguished by
the client vote-feedback computation, so data reachable during voting does
reveal which identities are AI. -/
theorem c7_counterexample :
    mc7a.status = .round_active ∧ mc7b.status = .round_active ∧
    (findRound mc7a.rounds 1).map (fun r => r.status) = some .voting ∧
    mc7a.rounds = mc7b.rounds ∧
    mc7a.participants.map (fun p => p.identity) = mc7b.participants.map (fun p => p.identity) ∧
    clientCorrectAnswer mc7a = some "A" ∧
    clientCorrectAnswer mc7b = some "B" := by
  decide

/-- C7 amended: pre-completion match payloads carry the participants' isAI
flags and the voting-screen client consumes them — for any payload of a
not-yet-completed match, the client vote feedback computes the correct answer
as the identity of the first participant whose isAI flag is false, thereby
deriving a human identity from the pre-reveal payload. -/
theorem c7_amended_isai_exposed (m : GameMatch) (p : Participant)
    (hfind : m.participants.find? (fun q => !q.isAI) = some p)
    (_hpre : m.status ≠ .completed) :
    clientCorrectAnswer m = some p.identity ∧ p.isAI = false := by
  refine ⟨by simp [clientCorrectAnswer, hfind], ?_⟩
  have hp := List.find?_some hfind
  simpa using hp

/-- C7 witness: the amended exposure statement at the mc7a fixture. -/
theorem c7_witness :
    clientCorrectAnswer mc7a
        = some ({ identity := "A", userId := "alice", isAI := false, score := 0 } : Participant).identity ∧
    ({ identity := "A", userId := "alice", isAI := false, score := 0 } : Participant).isAI = false :=
  c7_amended_isai_exposed mc7a { identity := "A", userId := "alice", isAI := false, score := 0 }
    (by decide) (by decide)

/-- Anatomy of a successful compare-and-swap status write: the round was
found, its status matched the expected prior status, and the result is the
match with exactly that round's status replaced. -/
theorem cas_success {m m₁ : GameMatch} {rn : Nat} {e n : RoundStatus}
    (h : casRoundStatus m rn e n = some m₁) :
    ∃ r, findRound m.rounds rn = some r ∧ r.status = e ∧
      m₁ = { m with rounds := mapRound m.rounds rn (fun r₀ => { r₀ with status := n }) } := by
  unfold casRoundStatus at h
  split at h
  next => exact absurd h (by simp)
  next r heq =>
    split at h
    next hs => exact ⟨r, heq, hs, (Option.some.inj h).symm⟩
    next hs => exact absurd h (by simp)

/-- Anatomy of a successful responding-to-voting transition. -/
theorem voting_success {m m₁ : GameMatch} {rn : Nat}
    (h : transitionRoundToVoting m rn = some m₁) :
    ∃ r, findRound m.rounds rn = some r ∧ r.status = RoundStatus.responding ∧
      keysComplete r.responses (allIdentities m) = true ∧
      m₁ = { m with rounds := mapRound m.rounds rn (fun r₀ => { r₀ with status := RoundStatus.voting }) } := by
  unfold transitionRoundToVoting at h
  split at h
  next => exact absurd h (by simp)
  next r heq =>
    split at h
    next hkc =>
      obtain ⟨r₁, hfr₁, hs₁, hm₁⟩ := cas_success h
      have hr₁ : r = r₁ := Option.some.inj (heq.symm.trans hfr₁)
      exact ⟨r, heq, hr₁ ▸ hs₁, hkc, hm₁⟩
    next hkc => exact absurd h (by simp)

/-- Anatomy of a successful voting-to-completed round transition. -/
theorem completed_success {m m₁ : GameMatch} {rn : Nat}
    (h : transitionRoundToCompleted m rn = some m₁) :
    ∃ r, findRound m.rounds rn = some r ∧ r.status = RoundStatus.voting ∧
      keysComplete r.votes (allIdentities m) = true ∧
      m₁ = { m with rounds := mapRound m.rounds rn (fun r₀ => { r₀ with status := RoundStatus.completed }) } := by
  unfold transitionRoundToCompleted at h
  split at h
  next => exact absurd h (by simp)
  next r heq =>
    split at h
    next hkc =>
      obtain ⟨r₁, hfr₁, hs₁, hm₁⟩ := cas_success h
      have hr₁ : r = r₁ := Option.some.inj (heq.symm.trans hfr₁)
      exact ⟨r, heq, hr₁ ▸ hs₁, hkc, hm₁⟩
    next hkc => exact absurd h (by simp)

/-- C1: the responding-to-voting round transition and the match completion
are compare-and-swap writes guarded by the prior status, so each executes at
most once — after a writer's transition took effect, any concurrent writer
that also observed completeness and attempts the same transition fails and
fires no side effects. -/
theorem c1_transition_at_most_once :
    (∀ m m₁ rn, applyRoundVoting m rn = (m₁, true) → applyRoundVoting m₁ rn = (m₁, false)) ∧
    (∀ m m₁, applyMatchCompletion m = (m₁, true) → applyMatchCompletion m₁ = (m₁, false)) := by
  constructor
  · intro m m₁ rn h
    have htr : transitionRoundToVoting m rn = some m₁ := by
      unfold applyRoundVoting at h
      cases htr : transitionRoundToVoting m rn with
      | none =>
          rw [htr] at h
          simp at h
      | some m₂ =>
          rw [htr] at h
          simp only [Prod.mk.injEq] at h
          rw [h.1]
    obtain ⟨r, hfr, hs, hkc, hm₁⟩ := voting_success htr
    have hmap := findRound_mapRound m.rounds rn (fun r₀ => { r₀ with status := RoundStatus.voting }) (fun r₀ => rfl)
    have hfr₁ : findRound m₁.rounds rn = some { r with status := RoundStatus.voting } := by
      rw [hm₁]
      simpa [hfr] using hmap
    have hparts : m₁.participants = m.participants := by rw [hm₁]
    have htr₁ : transitionRoundToVoting m₁ rn = none := by
      have hkc₁ : keysComplete ({ r with status := RoundStatus.voting }).responses (allIdentities m₁) = true := by
        simpa [allIdentities, hparts] using hkc
      simp [transitionRoundToVoting, casRoundStatus, hfr₁, hkc₁]
    simp [applyRoundVoting, htr₁]
  · intro m m₁ h
    have htr : transitionMatchToCompleted m = some m₁ := by
      unfold applyMatchCompletion at h
      cases htr : transitionMatchToCompleted m with
      | none =>
          rw [htr] at h
          simp at h
      | some m₂ =>
          rw [htr] at h
          simp only [Prod.mk.injEq] at h
          rw [h.1]
    have hstat : m₁.status = MatchStatus.completed := by
      unfold transitionMatchToCompleted at htr
      split at htr
      next =>
        obtain rfl := Option.some.inj htr
        rfl
      next => exact absurd htr (by simp)
    unfold applyMatchCompletion transitionMatchToCompleted
    simp [hstat]

/-- C1 witness: on the all-responses duo fixture the second transition
attempt after a successful one takes no effect, for both the round voting
transition and the match completion. -/
theorem c1_witness :
    applyRoundVoting mcFullV 1 = (mcFullV, false) ∧
    applyMatchCompletion mcDone = (mcDone, false) :=
  ⟨c1_transition_at_most_once.1 mcFull mcFullV 1 (by decide),
   c1_transition_at_most_once.2 mcFullV mcDone (by decide)⟩

/-- C4: a round moves from responding to voting only when the key set of its
responses equals the set of all participant identities, and from voting to
completed only when the key set of its votes does; the completeness check is
a pure set-membership check, invariant under any reordering of the writes. -/
theorem c4_completeness_guard :
    (∀ m rn m₁, transitionRoundToVoting m rn = some m₁ →
      (findRound m.rounds rn).map (fun r => keysComplete r.responses (allIdentities m)) = some true) ∧
    (∀ m rn m₁, transitionRoundToCompleted m rn = some m₁ →
      (findRound m.rounds rn).map (fun r => keysComplete r.votes (allIdentities m)) = some true) ∧
    (∀ (e₁ e₂ : List (String × String)) (ids : List String), e₁.Perm e₂ →
      keysComplete e₁ ids = keysComplete e₂ ids) := by
  refine ⟨?_, ?_, ?_⟩
  · intro m rn m₁ h
    obtain ⟨r, hfr, _, hkc, _⟩ := voting_success h
    simp [hfr, hkc]
  · intro m rn m₁ h
    obtain ⟨r, hfr, _, hkc, _⟩ := completed_success h
    simp [hfr, hkc]
  · intro e₁ e₂ ids hperm
    unfold keysComplete
    have h1 : ∀ i, i ∈ ids →
        ((lookupKey i e₁).isSome : Bool) = (lookupKey i e₂).isSome := by
      intro i _
      rw [lookupKey_isSome, lookupKey_isSome]
      exact perm_any _ hperm
    rw [all_congr_local ids h1, perm_all (fun e => ids.contains e.1) hperm]

/-- C4 witness: the guard evaluated on the all-responses duo fixture, and
order-insensitivity on a concrete permutation of its response writes. -/
theorem c4_witness :
    (findRound mcFull.rounds 1).map (fun r => keysComplete r.responses (allIdentities mcFull)) = some true ∧
    keysComplete [("A", "x"), ("B", "y")] ["A", "B"] = keysComplete [("B", "y"), ("A", "x")] ["A", "B"] :=
  ⟨c4_completeness_guard.1 mcFull 1 mcFullV (by decide),
   c4_completeness_guard.2.2 [("A", "x"), ("B", "y")] [("B", "y"), ("A", "x")] ["A", "B"]
     (List.Perm.swap ("B", "y") ("A", "x") [])⟩

/-- C5: AI generation dispatch fires only once every human identity has a
response, and when it fires it emits exactly one request per AI identity
lacking a response; in the duo scenario nothing is dispatched after the first
human response and exactly the two AI identities are dispatched after the
second. -/
theorem c5_dispatch_after_all_humans :
    (∀ m r, allHumansResponded m r = false → aiDispatch m r = []) ∧
    (∀ m r i, i ∈ aiDispatch m r ↔
      (allHumansResponded m r = true ∧ i ∈ aiIdentities m ∧ (lookupKey i r.responses).isNone = true)) ∧
    (∀ m r, (aiIdentities m).Nodup → (aiDispatch m r).Nodup) ∧
    aiDispatch (duoMatch roundAfterA) roundAfterA = [] ∧
    aiDispatch (duoMatch roundAfterAC) roundAfterAC = ["B", "D"] := by
  refine ⟨?_, ?_, ?_, by decide, by decide⟩
  · intro m r h
    simp [aiDispatch, h]
  · intro m r i
    unfold aiDispatch
    cases hb : allHumansResponded m r
    · simp [hb]
    · simp [hb, List.mem_filter]
  · intro m r hnd
    unfold aiDispatch
    cases hb : allHumansResponded m r
    · simp [hb]
    · simp only [hb, if_true]
      exact hnd.filter _

/-- C5 witness: the duo scenario conjuncts of the dispatch theorem. -/
theorem c5_witness :
    aiDispatch (duoMatch roundAfterA) roundAfterA = [] ∧
    aiDispatch (duoMatch roundAfterAC) roundAfterAC = ["B", "D"] :=
  ⟨c5_dispatch_after_all_humans.2.2.2.1, c5_dispatch_after_all_humans.2.2.2.2⟩

/-- C8: a vote with a response id outside the round's responseMapping is
rejected as Invalid response ID, a vote resolving to the voter's own identity
is rejected as Cannot vote for your own response (no state is produced in
either case), and a successful vote preserves the invariant that every
recorded vote targets an identity other than its voter. -/
theorem c8_vote_validation (m : GameMatch) (voter rid : String) (r : Round)
    (hr : findRound m.rounds m.currentRound = some r)
    (hv : r.status = RoundStatus.voting) :
    (lookupKey rid r.responseMapping = none →
      submitVote m voter rid = .error .invalidResponseId) ∧
    (lookupKey rid r.responseMapping = some voter →
      submitVote m voter rid = .error .ownResponse) ∧
    (∀ m₁ r₁, submitVote m voter rid = .ok m₁ →
      findRound m₁.rounds m₁.currentRound = some r₁ →
      votesValid r → votesValid r₁) := by
  refine ⟨?_, ?_, ?_⟩
  · intro hnone
    simp [submitVote, hr, hv, hnone]
  · intro hown
    simp [submitVote, hr, hv, hown]
  · intro m₁ r₁ hok hfr₁ hvalid
    simp only [submitVote, hr] at hok
    rw [if_pos hv] at hok
    split at hok
    next hlk => exact absurd hok (by simp)
    next target hlk =>
      split at hok
      next htgt => exact absurd hok (by simp)
      next htgt =>
        split at hok
        next hvoted => exact absurd hok (by simp)
        next hvoted =>
          have hm₁ : { m with rounds := mapRound m.rounds m.currentRound (fun r₀ => { r₀ with votes := setKey voter rid r₀.votes }) } = m₁ := Except.ok.inj hok
          have hmap := findRound_mapRound m.rounds m.currentRound (fun r₀ => { r₀ with votes := setKey voter rid r₀.votes }) (fun r₀ => rfl)
          have hfr₂ : findRound m₁.rounds m₁.currentRound = some { r with votes := setKey voter rid r.votes } := by
            rw [← hm₁]
            simpa [hr] using hmap
          rw [hfr₁] at hfr₂
          obtain rfl := Option.some.inj hfr₂
          intro v vid hmem
          rcases mem_setKey _ hmem with heq | hmem₀
          · obtain ⟨rfl, rfl⟩ : v = voter ∧ vid = rid := by
              simpa [Prod.ext_iff] using heq
            rw [hlk]
            intro hc
            exact htgt (Option.some.inj hc)
          · exact hvalid v vid hmem₀

/-- C8 witness: both rejections evaluated on the voting-phase duo fixture. -/
theorem c8_witness :
    submitVote mc8 "A" "nope" = .error .invalidResponseId ∧
    submitVote mc8 "A" "resp-1" = .error .ownResponse :=
  ⟨(c8_vote_validation mc8 "A" "nope" votingRound rfl rfl).1 rfl,
   (c8_vote_validation mc8 "A" "resp-1" votingRound rfl rfl).2.1 rfl⟩

/-- C9: the final ranking lists participants in descending cumulative-score
order, assigns equal ranks to equal scores (standard competition ranking),
and on cumulative scores 10, 10, 8, 8 produces ranks 1, 1, 3, 3. -/
theorem c9_competition_ranking (ps : List Participant) :
    List.Pairwise (fun a b : Participant × Nat => b.1.score ≤ a.1.score) (calculateFinalRankings ps) ∧
    (∀ a b, a ∈ calculateFinalRankings ps → b ∈ calculateFinalRankings ps →
      a.1.score = b.1.score → a.2 = b.2) ∧
    (calculateFinalRankings tiedParticipants).map (fun x => x.2) = [1, 1, 3, 3] := by
  refine ⟨?_, ?_, by decide⟩
  · unfold calculateFinalRankings
    rw [List.pairwise_map]
    exact List.sorted_insertionSort scoreDescRel ps
  · intro a b ha hb hscore
    unfold calculateFinalRankings at ha hb
    obtain ⟨p, hp, rfl⟩ := List.mem_map.mp ha
    obtain ⟨q, hq, rfl⟩ := List.mem_map.mp hb
    have hpq : p.score = q.score := hscore
    show rankOf ps p.score = rankOf ps q.score
    rw [hpq]

/-- C9 witness: the tied-scores example of the ranking theorem. -/
theorem c9_witness :
    (calculateFinalRankings tiedParticipants).map (fun x => x.2) = [1, 1, 3, 3] :=
  (c9_competition_ranking tiedParticipants).2.2

end RobotOrchestra
